import Mathlib

/-!
Shallow embedding of the microgrid control core of the `radheradhe_backend`
repository, and proofs about it.

The embedded code:
* `src/config.py` — `Config.ZONES` and the three battery thresholds;
* `src/services/optimization_service.py` — `EnergyOptimizer`:
  `_emergency_mode`, `_critical_mode`, `_conservation_mode`, `_normal_mode`,
  `_calculate_efficiency`, `_calculate_demand_score`, `_apply_load_balancing`
  and the decision-relevant part of `optimize_energy_allocation`;
* `src/services/watchdog_service.py` — `WatchdogService`:
  `_check_firebase_connectivity`, `_monitor_command_execution`,
  `_handle_failed_command`, `_retry_failed_commands`.

Python dictionaries are embedded as association lists (`List (String × _)`),
which preserves insertion order and key sets; `dict.get` with a default is
`dictGet`; float arithmetic is embedded as exact rational arithmetic over `ℚ`.
External collaborators (the Firebase store, the prediction service, the
notification sink, the wall clock) are passed in as explicit parameters, and
their observable invocations (escalation alerts, retry dispatches) are
recorded in the watchdog state so that properties about them can be stated.
-/

namespace Microgrid

/-- A relay command, the Python strings `"ON"` / `"OFF"`. -/
inductive Cmd
  | ON
  | OFF
deriving DecidableEq, Repr

/-- Zone tier, the `"type"` field of a `Config.ZONES` entry. -/
inductive ZoneType
  | critical
  | semiCritical
  | nonCritical
  | deferrable
deriving DecidableEq, Repr

/-- One `Config.ZONES` value: `{"type": ..., "priority": ..., "name": ...}`. -/
structure ZoneConfig where
  type : ZoneType
  priority : ℕ
  name : String
deriving DecidableEq, Repr

/-- The `"Zone1"` entry of `Config.ZONES`. -/
def z1e : String × ZoneConfig := ("Zone1", ⟨ZoneType.critical, 1, "Hospital/Emergency"⟩)

/-- The `"Zone2"` entry of `Config.ZONES`. -/
def z2e : String × ZoneConfig := ("Zone2", ⟨ZoneType.semiCritical, 2, "Street Lights"⟩)

/-- The `"Zone3"` entry of `Config.ZONES`. -/
def z3e : String × ZoneConfig := ("Zone3", ⟨ZoneType.nonCritical, 3, "Entertainment"⟩)

/-- The `"Zone4"` entry of `Config.ZONES`. -/
def z4e : String × ZoneConfig := ("Zone4", ⟨ZoneType.deferrable, 4, "Water Pumps"⟩)

/-- `Config.ZONES` from `src/config.py`, in dict insertion order. -/
def ZONES : List (String × ZoneConfig) := [z1e, z2e, z3e, z4e]

/-- `Config.EMERGENCY_BATTERY_THRESHOLD = 5`. -/
def EMERGENCY_BATTERY_THRESHOLD : ℚ := 5

/-- `Config.CRITICAL_BATTERY_THRESHOLD = 10`. -/
def CRITICAL_BATTERY_THRESHOLD : ℚ := 10

/-- `Config.LOW_BATTERY_THRESHOLD = 20`. -/
def LOW_BATTERY_THRESHOLD : ℚ := 20

/-- One zone's sensor dictionary.  The fields are the keys the optimizer
reads; a zone present in the snapshot is modelled as carrying all of them. -/
structure ZoneMetrics where
  inputPower : ℚ
  outputPower : ℚ
  batteryVoltage : ℚ
  batteryPercentage : ℚ
  solarGeneration : ℚ
deriving DecidableEq, Repr

/-- The empty dict `sensor_data.get(zone, {})` seen through the optimizer's
per-key defaults: `inputPower 0`, `outputPower 0`, `batteryVoltage 12`,
`batteryPercentage 50`, `solarGeneration 0`. -/
def defaultMetrics : ZoneMetrics := ⟨0, 0, 12, 50, 0⟩

/-- A snapshot: the `sensor_data` dict, zone id to metrics. -/
abbrev Snapshot := List (String × ZoneMetrics)

/-- A decision map: the `decisions` dict, zone id to command. -/
abbrev DecisionMap := List (String × Cmd)

/-- Dict lookup (`d[k]` / `d.get(k)`), returning the first binding of `k`. -/
def getEntry {α : Type} : List (String × α) → String → Option α
  | [], _ => none
  | (k, v) :: rest, z => if k = z then some v else getEntry rest z

/-- Dict assignment `d[k] = v`: replaces the first binding of `k` in place,
or appends a new binding when `k` is absent (Python insertion order). -/
def setEntry {α : Type} : List (String × α) → String → α → List (String × α)
  | [], k, v => [(k, v)]
  | (k', v') :: rest, k, v =>
      if k' = k then (k, v) :: rest else (k', v') :: setEntry rest k v

/-- Key list of a dict, in insertion order. -/
def keys {α : Type} (m : List (String × α)) : List String := m.map Prod.fst

/-- `sensor_data.get(zone, {})` followed by the per-key `.get` defaults. -/
def dictGet (sensor : Snapshot) (zone : String) : ZoneMetrics :=
  (getEntry sensor zone).getD defaultMetrics

/-- `EnergyOptimizer._calculate_efficiency`. -/
def calculate_efficiency (zone_data : ZoneMetrics) : ℚ :=
  if zone_data.inputPower ≤ 0 then 0
  else
    (min (zone_data.outputPower / zone_data.inputPower) 1) * 0.7 +
      (min (zone_data.batteryVoltage / 12.6) 1) * 0.3

/-- `EnergyOptimizer._calculate_demand_score`; `hour` is
`datetime.now().hour`, the hidden wall-clock input. -/
def calculate_demand_score (config : ZoneConfig) (hour : ℕ) : ℚ :=
  if config.type = ZoneType.semiCritical then
    if 18 ≤ hour ∨ hour ≤ 6 then 1 else 0.3
  else if config.type = ZoneType.nonCritical then
    if 18 ≤ hour ∧ hour ≤ 23 then 0.8 else 0.2
  else if config.type = ZoneType.deferrable then
    if (6 ≤ hour ∧ hour ≤ 8) ∨ (18 ≤ hour ∧ hour ≤ 20) then 0.9 else 0.1
  else 0.5

/-- `EnergyOptimizer._emergency_mode`: only critical zones ON. -/
def emergency_mode (_sensor : Snapshot) : DecisionMap :=
  ZONES.map fun zc =>
    (zc.1, if zc.2.type = ZoneType.critical then Cmd.ON else Cmd.OFF)

/-- `EnergyOptimizer._critical_mode`: critical and semi-critical zones ON
only when `inputPower > 10`, everything else OFF. -/
def critical_mode (sensor : Snapshot) : DecisionMap :=
  ZONES.map fun zc =>
    (zc.1,
      if zc.2.type = ZoneType.critical ∨ zc.2.type = ZoneType.semiCritical then
        if (dictGet sensor zc.1).inputPower > 10 then Cmd.ON else Cmd.OFF
      else Cmd.OFF)

/-- `EnergyOptimizer._conservation_mode`. -/
def conservation_mode (sensor : Snapshot) : DecisionMap :=
  ZONES.map fun zc =>
    (zc.1,
      if zc.2.type = ZoneType.critical then Cmd.ON
      else
        let efficiency := calculate_efficiency (dictGet sensor zc.1)
        if zc.2.type = ZoneType.semiCritical ∧ efficiency > 0.7 then Cmd.ON
        else if zc.2.type = ZoneType.nonCritical ∧ efficiency > 0.8 then Cmd.ON
        else Cmd.OFF)

/-- `EnergyOptimizer._normal_mode`.  `sustain_hours` is the prediction
response; `hour` is the wall clock read by `_calculate_demand_score`, whose
result the source computes and never uses. -/
def normal_mode (sensor : Snapshot) (sustain_hours : ℚ) (hour : ℕ) : DecisionMap :=
  ZONES.map fun zc =>
    (zc.1,
      let zone_data := dictGet sensor zc.1
      if zc.2.type = ZoneType.critical then Cmd.ON
      else
        let efficiency := calculate_efficiency zone_data
        let _demand_score := calculate_demand_score zc.2 hour
        if zc.2.type = ZoneType.semiCritical then
          if efficiency > 0.6 then Cmd.ON else Cmd.OFF
        else if zc.2.type = ZoneType.nonCritical then
          if efficiency > 0.7 ∧ sustain_hours > 4 then Cmd.ON else Cmd.OFF
        else if zc.2.type = ZoneType.deferrable then
          if efficiency > 0.8 ∧ sustain_hours > 8 then Cmd.ON else Cmd.OFF
        else Cmd.OFF)

/-- The projected total load of a decision map: the loop in
`_apply_load_balancing` summing `outputPower` over zones decided ON. -/
def projectedLoad (decisions : DecisionMap) (sensor : Snapshot) : ℚ :=
  decisions.foldl
    (fun acc p => if p.2 = Cmd.ON then acc + (dictGet sensor p.1).outputPower else acc) 0

/-- `total_available = sum(zone.get("inputPower", 0) for zone in sensor_data.values())`. -/
def totalAvailable (sensor : Snapshot) : ℚ :=
  sensor.foldl (fun acc p => acc + p.2.inputPower) 0

/-- `sorted(self.zones.items(), key=lambda x: x[1]["priority"])`: the registry
sorted by ascending priority (a stable sort, as Python's `sorted`). -/
def sorted_zones : List (String × ZoneConfig) :=
  List.insertionSort (fun a b => a.2.priority ≤ b.2.priority) ZONES

/-- One iteration of the shedding loop in `_apply_load_balancing`: the state
is the pair `(current_load, decisions)`. -/
def shedStep (limit : ℚ) (sensor : Snapshot) (st : ℚ × DecisionMap)
    (zc : String × ZoneConfig) : ℚ × DecisionMap :=
  if getEntry st.2 zc.1 = some Cmd.ON then
    let zone_load := (dictGet sensor zc.1).outputPower
    if st.1 + zone_load ≤ limit then (st.1 + zone_load, st.2)
    else (st.1, setEntry st.2 zc.1 Cmd.OFF)
  else st

/-- The shedding loop of `_apply_load_balancing` over a zone list. -/
def shedPass (limit : ℚ) (sensor : Snapshot) (zs : List (String × ZoneConfig))
    (st : ℚ × DecisionMap) : ℚ × DecisionMap :=
  zs.foldl (shedStep limit sensor) st

/-- `EnergyOptimizer._apply_load_balancing`. -/
def apply_load_balancing (decisions : DecisionMap) (sensor : Snapshot) : DecisionMap :=
  let total_projected_load := projectedLoad decisions sensor
  let total_available := totalAvailable sensor
  if total_projected_load > total_available * 0.9 then
    (shedPass (total_available * 0.9) sensor sorted_zones (0, decisions)).2
  else decisions

/-- The strict threshold ladder on `avg_battery` in
`optimize_energy_allocation` (first match wins). -/
inductive Mode
  | emergency
  | critical
  | conservation
  | normal
deriving DecidableEq, Repr

/-- Mode selection: the `if avg_battery < ...` ladder of
`optimize_energy_allocation`. -/
def selectMode (avg_battery : ℚ) : Mode :=
  if avg_battery < EMERGENCY_BATTERY_THRESHOLD then Mode.emergency
  else if avg_battery < CRITICAL_BATTERY_THRESHOLD then Mode.critical
  else if avg_battery < LOW_BATTERY_THRESHOLD then Mode.conservation
  else Mode.normal

/-- `avg_battery = sum(zone.get("batteryPercentage", 50) ...) / len(sensor_data)`. -/
def avgBattery (sensor : Snapshot) : ℚ :=
  sensor.foldl (fun acc p => acc + p.2.batteryPercentage) 0 / sensor.length

/-- The decision map a selected mode produces. -/
def modeDecisions (m : Mode) (sensor : Snapshot) (sustain_hours : ℚ) (hour : ℕ) :
    DecisionMap :=
  match m with
  | Mode.emergency => emergency_mode sensor
  | Mode.critical => critical_mode sensor
  | Mode.conservation => conservation_mode sensor
  | Mode.normal => normal_mode sensor sustain_hours hour

/-- The reasoning string appended for a selected mode. -/
def modeReason : Mode → String
  | Mode.emergency => "Emergency mode: Critical battery level"
  | Mode.critical => "Critical mode: Low battery"
  | Mode.conservation => "Conservation mode: Battery below threshold"
  | Mode.normal => "Normal mode: Sufficient battery"

/-- The decision-relevant output of `optimize_energy_allocation`: the final
decision map and the reasoning trace. -/
structure OptResult where
  decisions : DecisionMap
  reasoning : List String
deriving DecidableEq, Repr

/-- `EnergyOptimizer.optimize_energy_allocation`, decision part.
`sustain_hours` is the prediction-service response
(`ml_service.predict_battery_sustain`), `hour` the wall clock.  An empty
snapshot makes the Python body raise `ZeroDivisionError` in `avg_battery`,
which the `except` turns into a `success: False` result with no decisions:
embedded as `none`. -/
def optimize_energy_allocation (sensor : Snapshot) (sustain_hours : ℚ)
    (hour : ℕ) : Option OptResult :=
  if sensor = [] then none
  else
    let avg_battery := avgBattery sensor
    let m := selectMode avg_battery
    let decisions := modeDecisions m sensor sustain_hours hour
    let balanced := apply_load_balancing decisions sensor
    some ⟨balanced, [modeReason m, "Applied load balancing"]⟩

/-- Render a command the way Python interpolates it into messages. -/
def cmdStr : Cmd → String
  | Cmd.ON => "ON"
  | Cmd.OFF => "OFF"

/-- One `self.failed_commands[zone]` record of `WatchdogService`. -/
structure FailedEntry where
  command : Cmd
  reason : String
  timestamp : ℚ
  retry_count : ℕ
deriving DecidableEq, Repr

/-- One `notification_service.send_emergency_alert(kind, message, zones)`
invocation, recorded as the observable escalation. -/
structure Alert where
  kind : String
  message : String
  zones : List String
deriving DecidableEq, Repr

/-- The mutable state of `WatchdogService`, together with the observable
trace of its external effects: `alerts` records every
`send_emergency_alert` call, `retry_calls` records every `set_command`
invocation issued by `_retry_failed_commands` as `(zone, time)`. -/
structure WState where
  failed_commands : List (String × FailedEntry)
  connection_failures : ℕ
  alerts : List Alert
  retry_calls : List (String × ℚ)
deriving DecidableEq, Repr

/-- The watchdog state right after `__init__`. -/
def initialWState : WState := ⟨[], 0, [], []⟩

/-- Outcome of the `get_sensor_data()` call in
`_check_firebase_connectivity`: truthy data, falsy data (`None` or an empty
dict), or a raised exception. -/
inductive FetchOutcome
  | ok
  | empty
  | err
deriving DecidableEq, Repr

/-- `WatchdogService._check_firebase_connectivity`.  The `if data` branch
resets the counter, a falsy result increments it, and the
`connection_failures >= 3` alert-and-reset check runs afterwards — but only
inside the `try`: when the fetch raises, the `except` arm increments the
counter and the check is skipped. -/
def check_firebase_connectivity (s : WState) (fetch : FetchOutcome) : WState :=
  match fetch with
  | FetchOutcome.err => { s with connection_failures := s.connection_failures + 1 }
  | _ =>
      let n := match fetch with
        | FetchOutcome.ok => 0
        | _ => s.connection_failures + 1
      if n ≥ 3 then
        { s with
            connection_failures := 0,
            alerts := s.alerts ++
              [⟨"FIREBASE_CONNECTION_FAILURE",
                "Firebase connection failed " ++ toString n ++ " times", []⟩] }
      else { s with connection_failures := n }

/-- `WatchdogService._handle_failed_command`: unconditionally rewrites the
zone's entry with `retry_count = 0` and a fresh timestamp. -/
def handle_failed_command (s : WState) (zone : String) (command : Cmd)
    (reason : String) (now : ℚ) : WState :=
  { s with failed_commands := setEntry s.failed_commands zone ⟨command, reason, now, 0⟩ }

/-- `WatchdogService._monitor_command_execution`: every pending command
record `(zone, command, timestamp)` older than 120 s is classified TIMEOUT
and handed to `_handle_failed_command`. -/
def monitor_command_execution (s : WState) (commands : List (String × Cmd × ℚ))
    (now : ℚ) : WState :=
  commands.foldl
    (fun st r =>
      if now - r.2.2 > 120 then handle_failed_command st r.1 r.2.1 "TIMEOUT" now
      else st)
    s

/-- The body of the `_retry_failed_commands` loop for one queue entry:
returns the kept entries (in order), the alerts raised, and the
`set_command` calls issued.  `sendOK` is the outcome of `set_command`. -/
def retryFold (now : ℚ) (sendOK : String → Cmd → Bool)
    (acc : List (String × FailedEntry) × List Alert × List (String × ℚ))
    (p : String × FailedEntry) :
    List (String × FailedEntry) × List Alert × List (String × ℚ) :=
  if now - p.2.timestamp > 300 then
    if p.2.retry_count < 3 then
      let calls := acc.2.2 ++ [(p.1, now)]
      if sendOK p.1 p.2.command then (acc.1, acc.2.1, calls)
      else
        (acc.1 ++ [(p.1, { p.2 with retry_count := p.2.retry_count + 1, timestamp := now })],
         acc.2.1, calls)
    else
      (acc.1,
       acc.2.1 ++
         [⟨"COMMAND_RETRY_FAILURE",
           "Failed to execute command for " ++ p.1 ++ " after 3 retries: " ++
             cmdStr p.2.command, [p.1]⟩],
       acc.2.2)
  else (acc.1 ++ [p], acc.2.1, acc.2.2)

/-- `WatchdogService._retry_failed_commands`: entries older than 300 s are
retried while `retry_count < 3` (success removes, failure increments the
count and refreshes the timestamp); an eligible entry with
`retry_count >= 3` raises the escalation alert and is removed. -/
def retry_failed_commands (s : WState) (now : ℚ) (sendOK : String → Cmd → Bool) :
    WState :=
  let r := s.failed_commands.foldl (retryFold now sendOK) ([], s.alerts, s.retry_calls)
  { s with failed_commands := r.1, alerts := r.2.1, retry_calls := r.2.2 }

/-- Sum of `outputPower` over the zones a decision map has ON, written as a
`map`-then-`sum` (proved equal to the source's `projectedLoad` loop). -/
def onSum (sensor : Snapshot) (d : DecisionMap) : ℚ :=
  (d.map fun p => if p.2 = Cmd.ON then (dictGet sensor p.1).outputPower else 0).sum

/-- Sum of `outputPower` over the zones a decision map has ON whose key is
outside `zsN` — the ON load the shedding loop will never visit. -/
def outSum (sensor : Snapshot) (zsN : List String) (d : DecisionMap) : ℚ :=
  (d.map fun p =>
    if p.2 = Cmd.ON ∧ p.1 ∉ zsN then (dictGet sensor p.1).outputPower else 0).sum

/-! ### Concrete inputs used by counterexamples and witnesses -/

/-- Snapshot with average battery 7 (critical mode) where the critical zone
`Zone1` has `inputPower 5 <= 10`. -/
def sensor_c1 : Snapshot := [("Zone1", ⟨5, 0, 12, 7, 0⟩)]

/-- Snapshot whose average battery percentage is exactly 5. -/
def sensor_c5 : Snapshot := [("Zone1", ⟨0, 0, 12, 5, 0⟩)]

/-- Snapshot for the shedding counterexample: total input 50 (ceiling 45),
outputs `Zone1 10, Zone2 40, Zone3 1, Zone4 0`. -/
def sensor_c3 : Snapshot :=
  [("Zone1", ⟨50, 10, 12, 50, 0⟩),
   ("Zone2", ⟨0, 40, 12, 50, 0⟩),
   ("Zone3", ⟨0, 1, 12, 50, 0⟩),
   ("Zone4", ⟨0, 0, 12, 50, 0⟩)]

/-- All four zones decided ON. -/
def allOn : DecisionMap :=
  [("Zone1", Cmd.ON), ("Zone2", Cmd.ON), ("Zone3", Cmd.ON), ("Zone4", Cmd.ON)]

/-- A `set_command` environment in which every dispatch fails. -/
def sendFail : String → Cmd → Bool := fun _ _ => false

/-- A pending command record for `Zone1` issued at time 0. -/
def pendingAt0 : List (String × Cmd × ℚ) := [("Zone1", Cmd.ON, 0)]

/-- A pending command record for `Zone1` issued at time 900. -/
def pendingAt900 : List (String × Cmd × ℚ) := [("Zone1", Cmd.ON, 900)]

/-- Watchdog trace for the retry-exhaustion claim.  Tick at `t=130`: the
monitor classifies `Zone1`'s pending command as TIMEOUT.  Drain passes at
`t=440, 750, 1060` each retry and fail (`retry_count` reaches 3: three
consecutive failed retries). -/
def c4_after3 : WState :=
  retry_failed_commands
    (retry_failed_commands
      (retry_failed_commands
        (monitor_command_execution initialWState pendingAt0 130) 440 sendFail)
      750 sendFail)
    1060 sendFail

/-- Continuation of `c4_after3`: at `t=1090` the monitor again classifies the
zone's (still unacknowledged) pending command as TIMEOUT, then a drain pass
runs at `t=1400`. -/
def c4_final : WState :=
  retry_failed_commands (monitor_command_execution c4_after3 pendingAt900 1090)
    1400 sendFail

/-- Watchdog state holding one queue entry for `Zone1` whose three retries
have all failed (`retry_count = 3`, last attempt at time 1060). -/
def c4_exhausted : WState :=
  ⟨[("Zone1", ⟨Cmd.ON, "TIMEOUT", 1060, 3⟩)], 0, [], []⟩

/-- Snapshot with average battery 4, strictly below the emergency threshold. -/
def sensor_c6 : Snapshot := [("Zone1", ⟨0, 0, 12, 4, 0⟩)]

/-- Decision set over the registry keys with `Zone4` already OFF. -/
def d_c2 : DecisionMap :=
  [("Zone1", Cmd.ON), ("Zone2", Cmd.ON), ("Zone3", Cmd.ON), ("Zone4", Cmd.OFF)]

/-- Snapshot containing the configured `Zone1` and an unregistered `ZoneX`,
with `Zone2`, `Zone3`, `Zone4` absent. -/
def sensor_c10 : Snapshot :=
  [("Zone1", ⟨50, 10, 12, 50, 0⟩), ("ZoneX", ⟨50, 10, 12, 50, 0⟩)]

/-- Three consecutive ticks whose snapshot fetch raises an exception. -/
def c8_threeErr : WState :=
  check_firebase_connectivity
    (check_firebase_connectivity
      (check_firebase_connectivity initialWState FetchOutcome.err)
      FetchOutcome.err)
    FetchOutcome.err

/-! ### Association-list (Python dict) lemmas -/

theorem getEntry_eq_none {α : Type} :
    ∀ (m : List (String × α)) (z : String), z ∉ keys m → getEntry m z = none := by
  intro m
  induction m with
  | nil => intro z _; rfl
  | cons p rest ih =>
      intro z hz
      obtain ⟨k, v⟩ := p
      have h1 : z ≠ k := by
        intro h; exact hz (by simp [keys, h])
      have h2 : z ∉ keys rest := by
        intro h; exact hz (by simp [keys] at h ⊢; exact Or.inr h)
      show (if k = z then some v else getEntry rest z) = none
      rw [if_neg (fun h => h1 h.symm)]
      exact ih z h2

theorem getEntry_mem {α : Type} :
    ∀ (m : List (String × α)) (z : String) (v : α),
      getEntry m z = some v → (z, v) ∈ m := by
  intro m
  induction m with
  | nil => intro z v h; exact absurd h (by simp [getEntry])
  | cons p rest ih =>
      intro z v h
      obtain ⟨k, w⟩ := p
      have h' : (if k = z then some w else getEntry rest z) = some v := h
      by_cases hk : k = z
      · rw [if_pos hk] at h'
        have hw : w = v := Option.some.inj h'
        subst hk; subst hw
        exact List.mem_cons_self _ _
      · rw [if_neg hk] at h'
        exact List.mem_cons_of_mem _ (ih z v h')

theorem mem_keys_of_getEntry {α : Type} (m : List (String × α)) (z : String)
    (v : α) (h : getEntry m z = some v) : z ∈ keys m :=
  List.mem_map.mpr ⟨(z, v), getEntry_mem m z v h, rfl⟩

theorem getEntry_of_mem_nodup {α : Type} :
    ∀ (m : List (String × α)) (z : String) (v : α),
      (keys m).Nodup → (z, v) ∈ m → getEntry m z = some v := by
  intro m
  induction m with
  | nil => intro z v _ h; exact absurd h (by simp)
  | cons p rest ih =>
      intro z v hnd hm
      obtain ⟨k, w⟩ := p
      have hnd' : k ∉ keys rest ∧ (keys rest).Nodup := by
        simpa [keys] using hnd
      show (if k = z then some w else getEntry rest z) = some v
      rcases List.mem_cons.mp hm with h | h
      · have hk : z = k := congrArg Prod.fst h
        have hw : v = w := congrArg Prod.snd h
        rw [if_pos hk.symm, hw]
      · have hkz : k ≠ z := by
          intro hkz; subst hkz
          exact hnd'.1 (List.mem_map.mpr ⟨(k, v), h, rfl⟩)
        rw [if_neg hkz]
        exact ih z v hnd'.2 h

theorem getEntry_setEntry_self {α : Type} :
    ∀ (m : List (String × α)) (k : String) (v : α),
      getEntry (setEntry m k v) k = some v := by
  intro m
  induction m with
  | nil => intro k v; show (if k = k then some v else none) = some v; rw [if_pos rfl]
  | cons p rest ih =>
      intro k v
      obtain ⟨k', v'⟩ := p
      by_cases h : k' = k
      · show getEntry (if k' = k then (k, v) :: rest else (k', v') :: setEntry rest k v) k
            = some v
        rw [if_pos h]
        show (if k = k then some v else getEntry rest k) = some v
        rw [if_pos rfl]
      · show getEntry (if k' = k then (k, v) :: rest else (k', v') :: setEntry rest k v) k
            = some v
        rw [if_neg h]
        show (if k' = k then some v' else getEntry (setEntry rest k v) k) = some v
        rw [if_neg h]
        exact ih k v

theorem getEntry_setEntry_ne {α : Type} :
    ∀ (m : List (String × α)) (k z : String) (v : α), k ≠ z →
      getEntry (setEntry m k v) z = getEntry m z := by
  intro m
  induction m with
  | nil =>
      intro k z v h
      show (if k = z then some v else none) = none
      rw [if_neg h]
  | cons p rest ih =>
      intro k z v h
      obtain ⟨k', v'⟩ := p
      by_cases hk : k' = k
      · show getEntry (if k' = k then (k, v) :: rest else (k', v') :: setEntry rest k v) z
            = getEntry ((k', v') :: rest) z
        rw [if_pos hk]
        show (if k = z then some v else getEntry rest z)
            = (if k' = z then some v' else getEntry rest z)
        rw [if_neg h, if_neg (hk ▸ h)]
      · show getEntry (if k' = k then (k, v) :: rest else (k', v') :: setEntry rest k v) z
            = getEntry ((k', v') :: rest) z
        rw [if_neg hk]
        show (if k' = z then some v' else getEntry (setEntry rest k v) z)
            = (if k' = z then some v' else getEntry rest z)
        by_cases hz : k' = z
        · rw [if_pos hz, if_pos hz]
        · rw [if_neg hz, if_neg hz]
          exact ih k z v h

theorem keys_setEntry_of_mem {α : Type} :
    ∀ (m : List (String × α)) (k : String) (v : α), k ∈ keys m →
      keys (setEntry m k v) = keys m := by
  intro m
  induction m with
  | nil => intro k v h; exact absurd h (by simp [keys])
  | cons p rest ih =>
      intro k v h
      obtain ⟨k', v'⟩ := p
      by_cases hk : k' = k
      · show keys (if k' = k then (k, v) :: rest else (k', v') :: setEntry rest k v)
            = keys ((k', v') :: rest)
        rw [if_pos hk]
        show k :: keys rest = k' :: keys rest
        rw [hk]
      · show keys (if k' = k then (k, v) :: rest else (k', v') :: setEntry rest k v)
            = keys ((k', v') :: rest)
        rw [if_neg hk]
        show k' :: keys (setEntry rest k v) = k' :: keys rest
        have h' : k ∈ keys rest := by
          rcases (by simpa [keys] using h : k = k' ∨ k ∈ keys rest) with h | h
          · exact absurd h.symm hk
          · exact h
        exact congrArg _ (ih k v h')

/-! ### Sum lemmas -/

theorem projectedLoad_foldl (sensor : Snapshot) :
    ∀ (d : DecisionMap) (c : ℚ),
      d.foldl
        (fun acc p => if p.2 = Cmd.ON then acc + (dictGet sensor p.1).outputPower else acc)
        c = c + onSum sensor d := by
  intro d
  induction d with
  | nil => intro c; simp [onSum]
  | cons p rest ih =>
      intro c
      by_cases hp : p.2 = Cmd.ON
      · simp only [List.foldl_cons, if_pos hp, ih, onSum, List.map_cons, List.sum_cons]
        ring
      · simp only [List.foldl_cons, if_neg hp, ih, onSum, List.map_cons, List.sum_cons]
        ring

theorem projectedLoad_eq_onSum (d : DecisionMap) (sensor : Snapshot) :
    projectedLoad d sensor = onSum sensor d := by
  rw [projectedLoad, projectedLoad_foldl sensor d 0, zero_add]

theorem totalAvailable_foldl :
    ∀ (sensor : Snapshot) (c : ℚ),
      sensor.foldl (fun acc p => acc + p.2.inputPower) c =
        c + (sensor.map fun p => p.2.inputPower).sum := by
  intro sensor
  induction sensor with
  | nil => intro c; simp
  | cons p rest ih =>
      intro c
      simp only [List.foldl_cons, ih, List.map_cons, List.sum_cons]
      ring

theorem totalAvailable_nonneg (sensor : Snapshot)
    (h : ∀ p ∈ sensor, 0 ≤ p.2.inputPower) : 0 ≤ totalAvailable sensor := by
  rw [totalAvailable, totalAvailable_foldl sensor 0, zero_add]
  exact List.sum_nonneg (by
    intro x hx
    obtain ⟨p, hp, rfl⟩ := List.mem_map.mp hx
    exact h p hp)

theorem dictGet_outputPower_nonneg (sensor : Snapshot)
    (h : ∀ p ∈ sensor, 0 ≤ p.2.outputPower) (z : String) :
    0 ≤ (dictGet sensor z).outputPower := by
  rw [dictGet]
  cases hg : getEntry sensor z with
  | none => norm_num [defaultMetrics]
  | some v =>
      have := getEntry_mem sensor z v hg
      simpa using h (z, v) this

theorem outSum_nil_names (sensor : Snapshot) (d : DecisionMap) :
    outSum sensor [] d = onSum sensor d := by
  simp [outSum, onSum]

theorem outSum_eq_zero (sensor : Snapshot) (zsN : List String) (d : DecisionMap)
    (h : ∀ p ∈ d, p.1 ∈ zsN) : outSum sensor zsN d = 0 := by
  rw [outSum]
  apply List.sum_eq_zero
  intro x hx
  obtain ⟨p, hp, rfl⟩ := List.mem_map.mp hx
  rw [if_neg]
  intro hc
  exact hc.2 (h p hp)

theorem outSum_notmem_cons (sensor : Snapshot) :
    ∀ (d : DecisionMap) (z : String) (zsN : List String), (∀ p ∈ d, p.1 ≠ z) →
      outSum sensor (z :: zsN) d = outSum sensor zsN d := by
  intro d
  induction d with
  | nil => intro z zsN _; rfl
  | cons p rest ih =>
      intro z zsN h
      have hp : p.1 ≠ z := h p (List.mem_cons_self _ _)
      have hrest : ∀ q ∈ rest, q.1 ≠ z := fun q hq => h q (List.mem_cons_of_mem _ hq)
      simp only [outSum, List.map_cons, List.sum_cons]
      have hiff : (p.2 = Cmd.ON ∧ p.1 ∉ z :: zsN) ↔ (p.2 = Cmd.ON ∧ p.1 ∉ zsN) := by
        constructor
        · rintro ⟨h1, h2⟩
          exact ⟨h1, fun hm => h2 (List.mem_cons_of_mem _ hm)⟩
        · rintro ⟨h1, h2⟩
          refine ⟨h1, fun hm => ?_⟩
          rcases List.mem_cons.mp hm with hm | hm
          · exact hp hm
          · exact h2 hm
      have ihr := ih z zsN hrest
      simp only [outSum] at ihr
      rw [ihr]
      by_cases hcnd : p.2 = Cmd.ON ∧ p.1 ∉ zsN
      · rw [if_pos (hiff.mpr hcnd), if_pos hcnd]
      · rw [if_neg (fun hh => hcnd (hiff.mp hh)), if_neg hcnd]

theorem outSum_cons (sensor : Snapshot) :
    ∀ (d : DecisionMap) (z : String) (zsN : List String), (keys d).Nodup →
      outSum sensor zsN d = outSum sensor (z :: zsN) d +
        (if getEntry d z = some Cmd.ON ∧ z ∉ zsN then
          (dictGet sensor z).outputPower else 0) := by
  intro d
  induction d with
  | nil =>
      intro z zsN _
      show (0:ℚ) = 0 + (if (none : Option Cmd) = some Cmd.ON ∧ z ∉ zsN then _ else 0)
      rw [if_neg (by rintro ⟨h, _⟩; exact Option.noConfusion h), add_zero]
  | cons p rest ih =>
      intro z zsN hnd
      obtain ⟨k, c⟩ := p
      have hnd' : k ∉ keys rest ∧ (keys rest).Nodup := by simpa [keys] using hnd
      have hge : getEntry ((k, c) :: rest) z =
          (if k = z then some c else getEntry rest z) := rfl
      by_cases hk : k = z
      · subst hk
        rw [hge, if_pos rfl]
        simp only [outSum, List.map_cons, List.sum_cons]
        have hrest : ∀ p ∈ rest, p.1 ≠ k := by
          intro p hp hpk
          exact hnd'.1 (List.mem_map.mpr ⟨p, hp, hpk⟩)
        have heq := outSum_notmem_cons sensor rest k zsN hrest
        simp only [outSum] at heq
        rw [heq]
        have hmid : ¬(c = Cmd.ON ∧ k ∉ k :: zsN) := by
          rintro ⟨_, h2⟩
          exact h2 (List.mem_cons_self _ _)
        rw [if_neg hmid]
        by_cases hcnd : c = Cmd.ON ∧ k ∉ zsN
        · have hsome : some c = some Cmd.ON ∧ k ∉ zsN := ⟨by rw [hcnd.1], hcnd.2⟩
          rw [if_pos hcnd, if_pos hsome]
          ring
        · have hsome : ¬(some c = some Cmd.ON ∧ k ∉ zsN) := by
            rintro ⟨h1, h2⟩
            exact hcnd ⟨Option.some.inj h1, h2⟩
          rw [if_neg hcnd, if_neg hsome]
          ring
      · rw [hge, if_neg hk]
        simp only [outSum, List.map_cons, List.sum_cons]
        have ihr := ih z zsN hnd'.2
        simp only [outSum] at ihr
        rw [ihr]
        have hiff : (c = Cmd.ON ∧ k ∉ zsN) ↔ (c = Cmd.ON ∧ k ∉ z :: zsN) := by
          constructor
          · rintro ⟨h1, h2⟩
            refine ⟨h1, fun hm => ?_⟩
            rcases List.mem_cons.mp hm with hm | hm
            · exact hk hm
            · exact h2 hm
          · rintro ⟨h1, h2⟩
            exact ⟨h1, fun hm => h2 (List.mem_cons_of_mem _ hm)⟩
        by_cases hcnd : c = Cmd.ON ∧ k ∉ zsN
        · rw [if_pos hcnd, if_pos (hiff.mp hcnd)]
          ring
        · rw [if_neg hcnd, if_neg (fun hh => hcnd (hiff.mpr hh))]
          ring

theorem outSum_cons_le (sensor : Snapshot)
    (hout : ∀ z, 0 ≤ (dictGet sensor z).outputPower)
    (d : DecisionMap) (z : String) (zsN : List String) (hnd : (keys d).Nodup) :
    outSum sensor zsN d ≤ outSum sensor (z :: zsN) d +
      (if getEntry d z = some Cmd.ON then (dictGet sensor z).outputPower else 0) := by
  rw [outSum_cons sensor d z zsN hnd]
  have : (if getEntry d z = some Cmd.ON ∧ z ∉ zsN then
      (dictGet sensor z).outputPower else 0) ≤
      (if getEntry d z = some Cmd.ON then (dictGet sensor z).outputPower else 0) := by
    by_cases h1 : getEntry d z = some Cmd.ON
    · by_cases h2 : z ∉ zsN
      · rw [if_pos ⟨h1, h2⟩, if_pos h1]
      · rw [if_neg (fun hh => h2 hh.2), if_pos h1]
        exact hout z
    · rw [if_neg (fun hh => h1 hh.1), if_neg h1]
  linarith [this]

theorem outSum_setEntry_mem (sensor : Snapshot) :
    ∀ (d : DecisionMap) (z : String) (v : Cmd) (zsN : List String), z ∈ zsN →
      outSum sensor zsN (setEntry d z v) = outSum sensor zsN d := by
  intro d
  induction d with
  | nil =>
      intro z v zsN hz
      show outSum sensor zsN [(z, v)] = outSum sensor zsN []
      simp only [outSum, List.map_cons, List.map_nil, List.sum_cons, List.sum_nil]
      have hne : ¬(v = Cmd.ON ∧ z ∉ zsN) := fun hh => hh.2 hz
      rw [if_neg hne, add_zero]
  | cons p rest ih =>
      intro z v zsN hz
      obtain ⟨k, c⟩ := p
      by_cases hk : k = z
      · subst hk
        have hs : setEntry ((k, c) :: rest) k v = (k, v) :: rest := by
          show (if k = k then (k, v) :: rest else _) = _
          rw [if_pos rfl]
        rw [hs]
        simp only [outSum, List.map_cons, List.sum_cons]
        have h1 : ¬(v = Cmd.ON ∧ k ∉ zsN) := fun hh => hh.2 hz
        have h2 : ¬(c = Cmd.ON ∧ k ∉ zsN) := fun hh => hh.2 hz
        rw [if_neg h1, if_neg h2]
      · have hs : setEntry ((k, c) :: rest) z v = (k, c) :: setEntry rest z v := by
          show (if k = z then _ else (k, c) :: setEntry rest z v) = _
          rw [if_neg hk]
        rw [hs]
        simp only [outSum, List.map_cons, List.sum_cons]
        have ihr := ih z v zsN hz
        simp only [outSum] at ihr
        rw [ihr]

theorem keys_setEntry_of_not_mem {α : Type} :
    ∀ (m : List (String × α)) (k : String) (v : α), k ∉ keys m →
      keys (setEntry m k v) = keys m ++ [k] := by
  intro m
  induction m with
  | nil => intro k v _; rfl
  | cons p rest ih =>
      intro k v hm
      obtain ⟨k', v'⟩ := p
      have hk : k' ≠ k := by
        intro h; exact hm (by simp [keys, h])
      have hm' : k ∉ keys rest := by
        intro h; exact hm (by simp [keys] at h ⊢; exact Or.inr h)
      have hs : setEntry ((k', v') :: rest) k v = (k', v') :: setEntry rest k v := by
        show (if k' = k then _ else (k', v') :: setEntry rest k v) = _
        rw [if_neg hk]
      rw [hs]
      show k' :: keys (setEntry rest k v) = (k' :: keys rest) ++ [k]
      rw [ih k v hm', List.cons_append]

theorem keys_setEntry_nodup {α : Type} (m : List (String × α)) (k : String)
    (v : α) (hnd : (keys m).Nodup) : (keys (setEntry m k v)).Nodup := by
  by_cases hm : k ∈ keys m
  · rw [keys_setEntry_of_mem m k v hm]; exact hnd
  · rw [keys_setEntry_of_not_mem m k v hm]
    refine List.Nodup.append hnd (List.nodup_singleton k) ?_
    intro a ha hb
    rw [List.mem_singleton] at hb
    subst hb
    exact hm ha

theorem outSum_setEntry_off (sensor : Snapshot) (d : DecisionMap) (z : String)
    (zsN : List String) (hnd : (keys d).Nodup) :
    outSum sensor zsN (setEntry d z Cmd.OFF) = outSum sensor (z :: zsN) d := by
  have hnd2 : (keys (setEntry d z Cmd.OFF)).Nodup := keys_setEntry_nodup d z Cmd.OFF hnd
  have h1 := outSum_cons sensor (setEntry d z Cmd.OFF) z zsN hnd2
  rw [getEntry_setEntry_self d z Cmd.OFF] at h1
  rw [if_neg (by rintro ⟨h, _⟩; exact Cmd.noConfusion (Option.some.inj h))] at h1
  rw [add_zero] at h1
  rw [h1]
  exact outSum_setEntry_mem sensor d z Cmd.OFF (z :: zsN) (List.mem_cons_self _ _)

/-! ### Shedding-loop lemmas -/

theorem shedPass_nil (limit : ℚ) (sensor : Snapshot) (st : ℚ × DecisionMap) :
    shedPass limit sensor [] st = st := rfl

theorem shedPass_cons (limit : ℚ) (sensor : Snapshot) (zc : String × ZoneConfig)
    (rest : List (String × ZoneConfig)) (st : ℚ × DecisionMap) :
    shedPass limit sensor (zc :: rest) st =
      shedPass limit sensor rest (shedStep limit sensor st zc) := rfl

theorem shedPass_append (limit : ℚ) (sensor : Snapshot)
    (l1 l2 : List (String × ZoneConfig)) (st : ℚ × DecisionMap) :
    shedPass limit sensor (l1 ++ l2) st =
      shedPass limit sensor l2 (shedPass limit sensor l1 st) :=
  List.foldl_append ..

theorem shedStep_keep (limit : ℚ) (sensor : Snapshot) (st : ℚ × DecisionMap)
    (zc : String × ZoneConfig) (h1 : getEntry st.2 zc.1 = some Cmd.ON)
    (h2 : st.1 + (dictGet sensor zc.1).outputPower ≤ limit) :
    shedStep limit sensor st zc = (st.1 + (dictGet sensor zc.1).outputPower, st.2) := by
  simp only [shedStep]
  rw [if_pos h1, if_pos h2]

theorem shedStep_shed (limit : ℚ) (sensor : Snapshot) (st : ℚ × DecisionMap)
    (zc : String × ZoneConfig) (h1 : getEntry st.2 zc.1 = some Cmd.ON)
    (h2 : ¬ st.1 + (dictGet sensor zc.1).outputPower ≤ limit) :
    shedStep limit sensor st zc = (st.1, setEntry st.2 zc.1 Cmd.OFF) := by
  simp only [shedStep]
  rw [if_pos h1, if_neg h2]

theorem shedStep_skip (limit : ℚ) (sensor : Snapshot) (st : ℚ × DecisionMap)
    (zc : String × ZoneConfig) (h1 : ¬ getEntry st.2 zc.1 = some Cmd.ON) :
    shedStep limit sensor st zc = st := by
  simp only [shedStep]
  rw [if_neg h1]

theorem shedStep_mono (limit : ℚ) (sensor : Snapshot)
    (hout : ∀ z, 0 ≤ (dictGet sensor z).outputPower) (st : ℚ × DecisionMap)
    (zc : String × ZoneConfig) : st.1 ≤ (shedStep limit sensor st zc).1 := by
  by_cases h1 : getEntry st.2 zc.1 = some Cmd.ON
  · by_cases h2 : st.1 + (dictGet sensor zc.1).outputPower ≤ limit
    · rw [shedStep_keep limit sensor st zc h1 h2]
      have := hout zc.1
      simp only []
      linarith
    · rw [shedStep_shed limit sensor st zc h1 h2]
  · rw [shedStep_skip limit sensor st zc h1]

theorem shed_off_pres (limit : ℚ) (sensor : Snapshot) :
    ∀ (zs : List (String × ZoneConfig)) (st : ℚ × DecisionMap) (z : String),
      getEntry st.2 z = some Cmd.OFF →
      getEntry (shedPass limit sensor zs st).2 z = some Cmd.OFF := by
  intro zs
  induction zs with
  | nil => intro st z h; exact h
  | cons zc rest ih =>
      intro st z h
      rw [shedPass_cons]
      apply ih
      by_cases h1 : getEntry st.2 zc.1 = some Cmd.ON
      · by_cases h2 : st.1 + (dictGet sensor zc.1).outputPower ≤ limit
        · rw [shedStep_keep limit sensor st zc h1 h2]; exact h
        · rw [shedStep_shed limit sensor st zc h1 h2]
          show getEntry (setEntry st.2 zc.1 Cmd.OFF) z = some Cmd.OFF
          by_cases hz : zc.1 = z
          · subst hz; rw [getEntry_setEntry_self]
          · rw [getEntry_setEntry_ne st.2 zc.1 z Cmd.OFF hz]; exact h
      · rw [shedStep_skip limit sensor st zc h1]; exact h

theorem shed_none_pres (limit : ℚ) (sensor : Snapshot) :
    ∀ (zs : List (String × ZoneConfig)) (st : ℚ × DecisionMap) (z : String),
      getEntry st.2 z = none →
      getEntry (shedPass limit sensor zs st).2 z = none := by
  intro zs
  induction zs with
  | nil => intro st z h; exact h
  | cons zc rest ih =>
      intro st z h
      rw [shedPass_cons]
      apply ih
      by_cases h1 : getEntry st.2 zc.1 = some Cmd.ON
      · by_cases h2 : st.1 + (dictGet sensor zc.1).outputPower ≤ limit
        · rw [shedStep_keep limit sensor st zc h1 h2]; exact h
        · rw [shedStep_shed limit sensor st zc h1 h2]
          show getEntry (setEntry st.2 zc.1 Cmd.OFF) z = none
          have hz : zc.1 ≠ z := by
            intro hz; rw [hz, h] at h1; exact Option.noConfusion h1
          rw [getEntry_setEntry_ne st.2 zc.1 z Cmd.OFF hz]; exact h
      · rw [shedStep_skip limit sensor st zc h1]; exact h

theorem shed_untouched (limit : ℚ) (sensor : Snapshot) :
    ∀ (zs : List (String × ZoneConfig)) (st : ℚ × DecisionMap) (z : String),
      z ∉ keys zs →
      getEntry (shedPass limit sensor zs st).2 z = getEntry st.2 z := by
  intro zs
  induction zs with
  | nil => intro st z _; rfl
  | cons zc rest ih =>
      intro st z hz
      have hz1 : zc.1 ≠ z := by
        intro h; exact hz (by simp [keys, h])
      have hz2 : z ∉ keys rest := by
        intro h; exact hz (by simp [keys] at h ⊢; exact Or.inr h)
      rw [shedPass_cons, ih _ z hz2]
      by_cases h1 : getEntry st.2 zc.1 = some Cmd.ON
      · by_cases h2 : st.1 + (dictGet sensor zc.1).outputPower ≤ limit
        · rw [shedStep_keep limit sensor st zc h1 h2]
        · rw [shedStep_shed limit sensor st zc h1 h2]
          show getEntry (setEntry st.2 zc.1 Cmd.OFF) z = getEntry st.2 z
          exact getEntry_setEntry_ne st.2 zc.1 z Cmd.OFF hz1
      · rw [shedStep_skip limit sensor st zc h1]

theorem shed_kept_bound (limit : ℚ) (sensor : Snapshot)
    (hout : ∀ z, 0 ≤ (dictGet sensor z).outputPower) :
    ∀ (zs : List (String × ZoneConfig)) (st : ℚ × DecisionMap) (z : String),
      z ∈ keys zs →
      getEntry (shedPass limit sensor zs st).2 z = some Cmd.ON →
      st.1 + (dictGet sensor z).outputPower ≤ limit := by
  intro zs
  induction zs with
  | nil => intro st z hz _; exact absurd hz (by simp [keys])
  | cons zc rest ih =>
      intro st z hz hon
      rw [shedPass_cons] at hon
      by_cases hzc : zc.1 = z
      · by_cases h1 : getEntry st.2 zc.1 = some Cmd.ON
        · by_cases h2 : st.1 + (dictGet sensor zc.1).outputPower ≤ limit
          · rw [hzc] at h2; exact h2
          · rw [shedStep_shed limit sensor st zc h1 h2] at hon
            have hoff : getEntry (setEntry st.2 zc.1 Cmd.OFF) z = some Cmd.OFF := by
              rw [← hzc]; exact getEntry_setEntry_self st.2 zc.1 Cmd.OFF
            have := shed_off_pres limit sensor rest (st.1, setEntry st.2 zc.1 Cmd.OFF) z hoff
            rw [this] at hon
            exact absurd (Option.some.inj hon) (by intro h; exact Cmd.noConfusion h)
        · rw [shedStep_skip limit sensor st zc h1] at hon
          cases hc : getEntry st.2 z with
          | none =>
              rw [shed_none_pres limit sensor rest st z hc] at hon
              exact Option.noConfusion hon
          | some v =>
              cases v with
              | ON => rw [hzc] at h1; exact absurd hc h1
              | OFF =>
                  rw [shed_off_pres limit sensor rest st z hc] at hon
                  exact absurd (Option.some.inj hon) (by intro h; exact Cmd.noConfusion h)
      · have hz' : z ∈ keys rest := by
          rcases (by simpa [keys] using hz : z = zc.1 ∨ z ∈ keys rest) with h | h
          · exact absurd h.symm hzc
          · exact h
        have hstep := shedStep_mono limit sensor hout st zc
        have := ih (shedStep limit sensor st zc) z hz' hon
        linarith

theorem shed_bound (limit : ℚ) (sensor : Snapshot)
    (hout : ∀ z, 0 ≤ (dictGet sensor z).outputPower) :
    ∀ (zs : List (String × ZoneConfig)) (st : ℚ × DecisionMap),
      (keys st.2).Nodup →
      outSum sensor (keys zs) st.2 ≤ st.1 →
      st.1 ≤ limit →
      onSum sensor (shedPass limit sensor zs st).2 ≤ limit := by
  intro zs
  induction zs with
  | nil =>
      intro st _ hsum hlim
      rw [shedPass_nil]
      have := outSum_nil_names sensor st.2
      rw [show keys ([] : List (String × ZoneConfig)) = [] from rfl] at hsum
      linarith [this ▸ hsum]
  | cons zc rest ih =>
      intro st hnd hsum hlim
      have hkeys : keys (zc :: rest) = zc.1 :: keys rest := rfl
      rw [shedPass_cons]
      by_cases h1 : getEntry st.2 zc.1 = some Cmd.ON
      · by_cases h2 : st.1 + (dictGet sensor zc.1).outputPower ≤ limit
        · rw [shedStep_keep limit sensor st zc h1 h2]
          apply ih (st.1 + (dictGet sensor zc.1).outputPower, st.2) hnd _ h2
          have hle := outSum_cons_le sensor hout st.2 zc.1 (keys rest) hnd
          rw [if_pos h1] at hle
          rw [hkeys] at hsum
          show outSum sensor (keys rest) st.2 ≤ st.1 + (dictGet sensor zc.1).outputPower
          linarith
        · rw [shedStep_shed limit sensor st zc h1 h2]
          apply ih (st.1, setEntry st.2 zc.1 Cmd.OFF)
              (keys_setEntry_nodup st.2 zc.1 Cmd.OFF hnd) _ hlim
          show outSum sensor (keys rest) (setEntry st.2 zc.1 Cmd.OFF) ≤ st.1
          rw [outSum_setEntry_off sensor st.2 zc.1 (keys rest) hnd]
          rw [hkeys] at hsum
          exact hsum
      · rw [shedStep_skip limit sensor st zc h1]
        apply ih st hnd _ hlim
        have hle := outSum_cons_le sensor hout st.2 zc.1 (keys rest) hnd
        rw [if_neg h1] at hle
        rw [hkeys] at hsum
        show outSum sensor (keys rest) st.2 ≤ st.1
        linarith

theorem shed_forced_off_gt (limit : ℚ) (sensor : Snapshot)
    (hout : ∀ z, 0 ≤ (dictGet sensor z).outputPower)
    (l1 : List (String × ZoneConfig)) (zcA : String × ZoneConfig)
    (l2 : List (String × ZoneConfig)) (zB : String) (st : ℚ × DecisionMap)
    (hA1 : zcA.1 ∉ keys l1) (hA2 : zcA.1 ∉ keys l2) (hBin : zB ∈ keys l2)
    (hAon : getEntry st.2 zcA.1 = some Cmd.ON)
    (hAoff : getEntry (shedPass limit sensor (l1 ++ zcA :: l2) st).2 zcA.1 =
      some Cmd.OFF)
    (hBon : getEntry (shedPass limit sensor (l1 ++ zcA :: l2) st).2 zB =
      some Cmd.ON) :
    (dictGet sensor zB).outputPower < (dictGet sensor zcA.1).outputPower := by
  rw [shedPass_append] at hAoff hBon
  rw [shedPass_cons] at hAoff hBon
  have hA_on1 : getEntry (shedPass limit sensor l1 st).2 zcA.1 = some Cmd.ON := by
    rw [shed_untouched limit sensor l1 st zcA.1 hA1]; exact hAon
  by_cases h2 : (shedPass limit sensor l1 st).1 +
      (dictGet sensor zcA.1).outputPower ≤ limit
  · exfalso
    rw [shedStep_keep limit sensor (shedPass limit sensor l1 st) zcA hA_on1 h2]
      at hAoff
    rw [shed_untouched limit sensor l2 _ zcA.1 hA2] at hAoff
    have : some Cmd.ON = some Cmd.OFF := hA_on1 ▸ hAoff
    exact Cmd.noConfusion (Option.some.inj this)
  · rw [shedStep_shed limit sensor (shedPass limit sensor l1 st) zcA hA_on1 h2]
      at hBon
    have hkept := shed_kept_bound limit sensor hout l2
      ((shedPass limit sensor l1 st).1,
        setEntry (shedPass limit sensor l1 st).2 zcA.1 Cmd.OFF) zB hBin hBon
    simp only [] at hkept
    push_neg at h2
    linarith

/-! ### Zone-id literal facts (used to evaluate dict lookups in simp calls) -/

theorem zsne12 : ("Zone1" : String) ≠ "Zone2" := by decide

theorem zsne13 : ("Zone1" : String) ≠ "Zone3" := by decide

theorem zsne14 : ("Zone1" : String) ≠ "Zone4" := by decide

theorem zsne1X : ("Zone1" : String) ≠ "ZoneX" := by decide

theorem zsne21 : ("Zone2" : String) ≠ "Zone1" := by decide

theorem zsne23 : ("Zone2" : String) ≠ "Zone3" := by decide

theorem zsne24 : ("Zone2" : String) ≠ "Zone4" := by decide

theorem zsne2X : ("Zone2" : String) ≠ "ZoneX" := by decide

theorem zsne31 : ("Zone3" : String) ≠ "Zone1" := by decide

theorem zsne32 : ("Zone3" : String) ≠ "Zone2" := by decide

theorem zsne34 : ("Zone3" : String) ≠ "Zone4" := by decide

theorem zsne3X : ("Zone3" : String) ≠ "ZoneX" := by decide

theorem zsne41 : ("Zone4" : String) ≠ "Zone1" := by decide

theorem zsne42 : ("Zone4" : String) ≠ "Zone2" := by decide

theorem zsne43 : ("Zone4" : String) ≠ "Zone3" := by decide

theorem zsne4X : ("Zone4" : String) ≠ "ZoneX" := by decide

theorem zsneX1 : ("ZoneX" : String) ≠ "Zone1" := by decide

theorem zsneX2 : ("ZoneX" : String) ≠ "Zone2" := by decide

theorem zsneX3 : ("ZoneX" : String) ≠ "Zone3" := by decide

theorem zsneX4 : ("ZoneX" : String) ≠ "Zone4" := by decide

theorem ztne_cs : ZoneType.critical ≠ ZoneType.semiCritical := by decide

theorem ztne_cn : ZoneType.critical ≠ ZoneType.nonCritical := by decide

theorem ztne_cd : ZoneType.critical ≠ ZoneType.deferrable := by decide

theorem ztne_sc : ZoneType.semiCritical ≠ ZoneType.critical := by decide

theorem ztne_sn : ZoneType.semiCritical ≠ ZoneType.nonCritical := by decide

theorem ztne_sd : ZoneType.semiCritical ≠ ZoneType.deferrable := by decide

theorem ztne_nc : ZoneType.nonCritical ≠ ZoneType.critical := by decide

theorem ztne_ns : ZoneType.nonCritical ≠ ZoneType.semiCritical := by decide

theorem ztne_nd : ZoneType.nonCritical ≠ ZoneType.deferrable := by decide

theorem ztne_dc : ZoneType.deferrable ≠ ZoneType.critical := by decide

theorem ztne_ds : ZoneType.deferrable ≠ ZoneType.semiCritical := by decide

theorem ztne_dn : ZoneType.deferrable ≠ ZoneType.nonCritical := by decide

/-! ### Claim theorems -/

/-- C9: for every zone-metrics record with non-negative `inputPower`,
`outputPower` and `batteryVoltage`, the efficiency score lies in `[0,1]`;
it is 0 when `inputPower <= 0` and otherwise equals
`0.7 * min(outputPower/inputPower, 1) + 0.3 * min(batteryVoltage/12.6, 1)`. -/
theorem efficiency_bounds (zone_data : ZoneMetrics)
    (_hin : 0 ≤ zone_data.inputPower) (hout : 0 ≤ zone_data.outputPower)
    (hbv : 0 ≤ zone_data.batteryVoltage) :
    (0 ≤ calculate_efficiency zone_data ∧ calculate_efficiency zone_data ≤ 1) ∧
    (zone_data.inputPower ≤ 0 → calculate_efficiency zone_data = 0) ∧
    (0 < zone_data.inputPower → calculate_efficiency zone_data =
      0.7 * min (zone_data.outputPower / zone_data.inputPower) 1 +
        0.3 * min (zone_data.batteryVoltage / 12.6) 1) := by
  unfold calculate_efficiency
  by_cases h : zone_data.inputPower ≤ 0
  · rw [if_pos h]
    exact ⟨⟨le_refl 0, by norm_num⟩, fun _ => rfl,
      fun hlt => absurd hlt (not_lt.mpr h)⟩
  · rw [if_neg h]
    push_neg at h
    have h1 : 0 ≤ min (zone_data.outputPower / zone_data.inputPower) 1 :=
      le_min (div_nonneg hout h.le) zero_le_one
    have h2 : min (zone_data.outputPower / zone_data.inputPower) 1 ≤ 1 :=
      min_le_right _ _
    have h3 : 0 ≤ min (zone_data.batteryVoltage / 12.6) 1 :=
      le_min (div_nonneg hbv (by norm_num)) zero_le_one
    have h4 : min (zone_data.batteryVoltage / 12.6) 1 ≤ 1 := min_le_right _ _
    refine ⟨⟨by linarith, by linarith⟩,
      fun hle => absurd h (not_lt.mpr hle), fun _ => by ring⟩

/-- Witness for C9 at a concrete record with positive input. -/
theorem efficiency_bounds_witness :
    (0 ≤ calculate_efficiency ⟨50, 40, 12.6, 50, 0⟩ ∧
      calculate_efficiency ⟨50, 40, 12.6, 50, 0⟩ ≤ 1) ∧
    ((⟨50, 40, 12.6, 50, 0⟩ : ZoneMetrics).inputPower ≤ 0 →
      calculate_efficiency ⟨50, 40, 12.6, 50, 0⟩ = 0) ∧
    (0 < (⟨50, 40, 12.6, 50, 0⟩ : ZoneMetrics).inputPower →
      calculate_efficiency ⟨50, 40, 12.6, 50, 0⟩ =
        0.7 * min ((⟨50, 40, 12.6, 50, 0⟩ : ZoneMetrics).outputPower /
          (⟨50, 40, 12.6, 50, 0⟩ : ZoneMetrics).inputPower) 1 +
          0.3 * min ((⟨50, 40, 12.6, 50, 0⟩ : ZoneMetrics).batteryVoltage / 12.6) 1) :=
  efficiency_bounds ⟨50, 40, 12.6, 50, 0⟩ (by norm_num) (by norm_num) (by norm_num)

/-- C7: the decision engine is deterministic across two runs — with the same
snapshot and the same prediction response, the produced decision map and
reasoning trace are identical whatever the wall-clock hour is on each run
(the only wall-clock read, `_calculate_demand_score`, is discarded). -/
theorem decision_engine_deterministic (sensor : Snapshot) (sustain_hours : ℚ)
    (hour1 hour2 : ℕ) :
    optimize_energy_allocation sensor sustain_hours hour1 =
      optimize_energy_allocation sensor sustain_hours hour2 := rfl

/-- C6: whenever the average battery percentage is strictly below the
emergency threshold, the selected mode's decision map is the fixed
assignment `Zone1 (critical) ON`, all other zones OFF — independent of every
per-zone metric. -/
theorem emergency_mode_decision (sensor : Snapshot) (sustain_hours : ℚ)
    (hour : ℕ) (h : avgBattery sensor < EMERGENCY_BATTERY_THRESHOLD) :
    modeDecisions (selectMode (avgBattery sensor)) sensor sustain_hours hour =
      [("Zone1", Cmd.ON), ("Zone2", Cmd.OFF), ("Zone3", Cmd.OFF), ("Zone4", Cmd.OFF)] := by
  simp only [selectMode]
  rw [if_pos h]
  rfl

/-- Witness for C6 at a snapshot with average battery 4. -/
theorem emergency_mode_decision_witness :
    avgBattery sensor_c6 < EMERGENCY_BATTERY_THRESHOLD ∧
    modeDecisions (selectMode (avgBattery sensor_c6)) sensor_c6 10 12 =
      [("Zone1", Cmd.ON), ("Zone2", Cmd.OFF), ("Zone3", Cmd.OFF), ("Zone4", Cmd.OFF)] :=
  ⟨by norm_num [avgBattery, sensor_c6, EMERGENCY_BATTERY_THRESHOLD],
    emergency_mode_decision sensor_c6 10 12
      (by norm_num [avgBattery, sensor_c6, EMERGENCY_BATTERY_THRESHOLD])⟩

/-- C5 counterexample: at `avgBatteryPercentage` exactly 5 the ladder does
NOT engage Emergency mode — the full pipeline reports Critical mode. -/
theorem avg_battery_five_not_emergency_cx :
    avgBattery sensor_c5 = EMERGENCY_BATTERY_THRESHOLD ∧
    selectMode (avgBattery sensor_c5) = Mode.critical ∧
    (optimize_energy_allocation sensor_c5 10 12).map OptResult.reasoning =
      some ["Critical mode: Low battery", "Applied load balancing"] := by
  refine ⟨?_, ?_, ?_⟩
  · norm_num [avgBattery, sensor_c5, EMERGENCY_BATTERY_THRESHOLD]
  · norm_num [avgBattery, sensor_c5, selectMode, EMERGENCY_BATTERY_THRESHOLD,
      CRITICAL_BATTERY_THRESHOLD, LOW_BATTERY_THRESHOLD]
  · norm_num [optimize_energy_allocation, avgBattery, sensor_c5, selectMode,
      EMERGENCY_BATTERY_THRESHOLD, CRITICAL_BATTERY_THRESHOLD,
      LOW_BATTERY_THRESHOLD, modeDecisions, critical_mode, ZONES, z1e, z2e, z3e,
      z4e, dictGet, getEntry, defaultMetrics, apply_load_balancing,
      projectedLoad, totalAvailable, modeReason, zsne12, zsne13, zsne14, zsne21,
      zsne23, zsne24, zsne31, zsne32, zsne34, zsne41, zsne42, zsne43]

/-- C5 amended: a snapshot whose average battery percentage equals the
emergency threshold 5 selects Critical mode (the emergency comparison is
strict), and the pipeline's reasoning trace reports Critical mode. -/
theorem avg_battery_five_critical_mode (sensor : Snapshot) (sustain_hours : ℚ)
    (hour : ℕ) (hne : sensor ≠ [])
    (h : avgBattery sensor = EMERGENCY_BATTERY_THRESHOLD) :
    selectMode (avgBattery sensor) = Mode.critical ∧
    (optimize_energy_allocation sensor sustain_hours hour).map OptResult.reasoning =
      some ["Critical mode: Low battery", "Applied load balancing"] := by
  have hsel : selectMode (avgBattery sensor) = Mode.critical := by
    simp only [selectMode, h]
    rw [if_neg (by norm_num [EMERGENCY_BATTERY_THRESHOLD]),
      if_pos (by norm_num [EMERGENCY_BATTERY_THRESHOLD, CRITICAL_BATTERY_THRESHOLD])]
  refine ⟨hsel, ?_⟩
  simp only [optimize_energy_allocation]
  rw [if_neg hne]
  simp only [Option.map_some', hsel, modeReason]

/-- Witness for the C5 amended theorem at the concrete snapshot with
average battery exactly 5. -/
theorem avg_battery_five_critical_mode_witness :
    sensor_c5 ≠ [] ∧ avgBattery sensor_c5 = EMERGENCY_BATTERY_THRESHOLD ∧
    (selectMode (avgBattery sensor_c5) = Mode.critical ∧
      (optimize_energy_allocation sensor_c5 10 12).map OptResult.reasoning =
        some ["Critical mode: Low battery", "Applied load balancing"]) :=
  ⟨by decide, by norm_num [avgBattery, sensor_c5, EMERGENCY_BATTERY_THRESHOLD],
    avg_battery_five_critical_mode sensor_c5 10 12 (by decide)
      (by norm_num [avgBattery, sensor_c5, EMERGENCY_BATTERY_THRESHOLD])⟩

/-- C8 counterexample: three consecutive fetch exceptions drive the
connectivity counter to 3 with no escalation alert, and a fourth pushes it
past 3 — the `>= 3` alert-and-reset check is skipped on the exception path. -/
theorem connectivity_counter_exceeds_three_cx :
    c8_threeErr.connection_failures = 3 ∧ c8_threeErr.alerts = [] ∧
    (check_firebase_connectivity c8_threeErr FetchOutcome.err).connection_failures = 4 ∧
    (check_firebase_connectivity c8_threeErr FetchOutcome.err).alerts = [] := by
  refine ⟨?_, ?_, ?_, ?_⟩ <;>
    norm_num [c8_threeErr, check_firebase_connectivity, initialWState]

/-- C8 amended: every failed fetch increments the counter and every
successful fetch resets it to 0; the alert-and-reset fires exactly when a
fetch returns no data without raising and the incremented counter is at
least 3; a fetch that raises increments the counter with no alert check, so
the counter can reach and exceed 3 without an alert. -/
theorem connectivity_counter_amended (s : WState) :
    (check_firebase_connectivity s FetchOutcome.ok).connection_failures = 0 ∧
    (check_firebase_connectivity s FetchOutcome.ok).alerts = s.alerts ∧
    (check_firebase_connectivity s FetchOutcome.err).connection_failures =
      s.connection_failures + 1 ∧
    (check_firebase_connectivity s FetchOutcome.err).alerts = s.alerts ∧
    (check_firebase_connectivity s FetchOutcome.empty).connection_failures =
      (if s.connection_failures + 1 ≥ 3 then 0 else s.connection_failures + 1) ∧
    (check_firebase_connectivity s FetchOutcome.empty).alerts =
      (if s.connection_failures + 1 ≥ 3 then
        s.alerts ++ [⟨"FIREBASE_CONNECTION_FAILURE",
          "Firebase connection failed " ++ toString (s.connection_failures + 1) ++
            " times", []⟩]
      else s.alerts) := by
  refine ⟨by simp [check_firebase_connectivity], by simp [check_firebase_connectivity],
    rfl, rfl, ?_, ?_⟩ <;>
  · simp only [check_firebase_connectivity]
    by_cases h : s.connection_failures + 1 ≥ 3
    · rw [if_pos h, if_pos h]
    · rw [if_neg h, if_neg h]

/-- C4 counterexample: `Zone1`'s entry accumulates three consecutive failed
retries (`retry_count = 3`), yet when the command-execution monitor
re-classifies the zone's still-pending command as TIMEOUT, the entry is
rewritten with `retry_count = 0`: it is never removed, no escalation alert
is ever raised, and a fourth retry of the same zone's command is issued. -/
theorem watchdog_retry_unbounded_cx :
    (getEntry c4_after3.failed_commands "Zone1").map FailedEntry.retry_count =
      some 3 ∧
    c4_after3.retry_calls = [("Zone1", 440), ("Zone1", 750), ("Zone1", 1060)] ∧
    c4_after3.alerts = [] ∧
    c4_final.retry_calls =
      [("Zone1", 440), ("Zone1", 750), ("Zone1", 1060), ("Zone1", 1400)] ∧
    c4_final.alerts = [] ∧
    getEntry c4_final.failed_commands "Zone1" = some ⟨Cmd.ON, "TIMEOUT", 1400, 1⟩ := by
  refine ⟨?_, ?_, ?_, ?_, ?_, ?_⟩ <;>
    norm_num [c4_after3, c4_final, retry_failed_commands, retryFold,
      monitor_command_execution, handle_failed_command, initialWState,
      pendingAt0, pendingAt900, sendFail, setEntry, getEntry]

/-- C4 amended: an entry whose `retry_count` has reached 3 is, on the first
drain pass more than 300 s after its last attempt, removed from the queue
with exactly one escalation alert naming the zone and the command, and no
further `set_command` retry is issued for it — provided the monitor has not
rewritten the entry in the meantime. -/
theorem retry_exhaustion_amended (s : WState) (zone : String) (e : FailedEntry)
    (now : ℚ) (sendOK : String → Cmd → Bool)
    (hq : s.failed_commands = [(zone, e)])
    (hc : e.retry_count = 3)
    (ht : now - e.timestamp > 300) :
    (retry_failed_commands s now sendOK).failed_commands = [] ∧
    (retry_failed_commands s now sendOK).alerts = s.alerts ++
      [⟨"COMMAND_RETRY_FAILURE",
        "Failed to execute command for " ++ zone ++ " after 3 retries: " ++
          cmdStr e.command, [zone]⟩] ∧
    (retry_failed_commands s now sendOK).retry_calls = s.retry_calls := by
  have h3 : ¬ e.retry_count < 3 := by rw [hc]; exact Nat.lt_irrefl 3
  simp only [retry_failed_commands, hq, List.foldl_cons, List.foldl_nil, retryFold]
  rw [if_pos ht, if_neg h3]
  exact ⟨rfl, rfl, rfl⟩

/-- Witness for the C4 amended theorem: a singleton queue whose entry has
exhausted its three retries, drained at time 1400. -/
theorem retry_exhaustion_amended_witness :
    c4_exhausted.failed_commands = [("Zone1", ⟨Cmd.ON, "TIMEOUT", 1060, 3⟩)] ∧
    (⟨Cmd.ON, "TIMEOUT", 1060, 3⟩ : FailedEntry).retry_count = 3 ∧
    (1400 : ℚ) - (⟨Cmd.ON, "TIMEOUT", 1060, 3⟩ : FailedEntry).timestamp > 300 ∧
    ((retry_failed_commands c4_exhausted 1400 sendFail).failed_commands = [] ∧
      (retry_failed_commands c4_exhausted 1400 sendFail).alerts =
        c4_exhausted.alerts ++
          [⟨"COMMAND_RETRY_FAILURE",
            "Failed to execute command for " ++ "Zone1" ++ " after 3 retries: " ++
              cmdStr Cmd.ON, ["Zone1"]⟩] ∧
      (retry_failed_commands c4_exhausted 1400 sendFail).retry_calls =
        c4_exhausted.retry_calls) :=
  ⟨rfl, rfl, by norm_num,
    retry_exhaustion_amended c4_exhausted "Zone1" ⟨Cmd.ON, "TIMEOUT", 1060, 3⟩
      1400 sendFail rfl rfl (by norm_num)⟩

/-- C10: every decision mode's output has exactly the registry's zone ids as
its key set; a configured non-critical zone absent from the snapshot is
treated as defaulted metrics and decided OFF by the Critical, Conservation
and Normal modes; a zone id outside the registry gets no decision. -/
theorem mode_decision_keyset (sensor : Snapshot) (sustain_hours : ℚ) (hour : ℕ)
    (_hne : sensor ≠ []) :
    keys (emergency_mode sensor) = keys ZONES ∧
    keys (critical_mode sensor) = keys ZONES ∧
    keys (conservation_mode sensor) = keys ZONES ∧
    keys (normal_mode sensor sustain_hours hour) = keys ZONES ∧
    (∀ z cfg, (z, cfg) ∈ ZONES → cfg.type ≠ ZoneType.critical →
      getEntry sensor z = none →
      getEntry (critical_mode sensor) z = some Cmd.OFF ∧
      getEntry (conservation_mode sensor) z = some Cmd.OFF ∧
      getEntry (normal_mode sensor sustain_hours hour) z = some Cmd.OFF) ∧
    (∀ w, w ∉ keys ZONES →
      getEntry (emergency_mode sensor) w = none ∧
      getEntry (critical_mode sensor) w = none ∧
      getEntry (conservation_mode sensor) w = none ∧
      getEntry (normal_mode sensor sustain_hours hour) w = none) := by
  refine ⟨rfl, rfl, rfl, rfl, ?_, ?_⟩
  · intro z cfg hmem hcrit hz
    simp only [ZONES, z1e, z2e, z3e, z4e, List.mem_cons, List.not_mem_nil,
      or_false] at hmem
    rcases hmem with h | h | h | h <;>
      (rw [Prod.mk.injEq] at h; obtain ⟨rfl, rfl⟩ := h)
    · exact absurd rfl hcrit
    · have hd : dictGet sensor "Zone2" = defaultMetrics := by rw [dictGet, hz]; rfl
      refine ⟨?_, ?_, ?_⟩ <;>
        norm_num [critical_mode, conservation_mode, normal_mode, ZONES, z1e, z2e,
          z3e, z4e, getEntry, hd, defaultMetrics, calculate_efficiency, zsne12,
          zsne13, zsne14, zsne21, zsne23, zsne24, zsne31, zsne32, zsne34,
          zsne41, zsne42, zsne43, ztne_cs, ztne_cn, ztne_cd, ztne_sc, ztne_sn,
          ztne_sd, ztne_nc, ztne_ns, ztne_nd, ztne_dc, ztne_ds, ztne_dn]
    · have hd : dictGet sensor "Zone3" = defaultMetrics := by rw [dictGet, hz]; rfl
      refine ⟨?_, ?_, ?_⟩ <;>
        norm_num [critical_mode, conservation_mode, normal_mode, ZONES, z1e, z2e,
          z3e, z4e, getEntry, hd, defaultMetrics, calculate_efficiency, zsne12,
          zsne13, zsne14, zsne21, zsne23, zsne24, zsne31, zsne32, zsne34,
          zsne41, zsne42, zsne43, ztne_cs, ztne_cn, ztne_cd, ztne_sc, ztne_sn,
          ztne_sd, ztne_nc, ztne_ns, ztne_nd, ztne_dc, ztne_ds, ztne_dn]
    · have hd : dictGet sensor "Zone4" = defaultMetrics := by rw [dictGet, hz]; rfl
      refine ⟨?_, ?_, ?_⟩ <;>
        norm_num [critical_mode, conservation_mode, normal_mode, ZONES, z1e, z2e,
          z3e, z4e, getEntry, hd, defaultMetrics, calculate_efficiency, zsne12,
          zsne13, zsne14, zsne21, zsne23, zsne24, zsne31, zsne32, zsne34,
          zsne41, zsne42, zsne43, ztne_cs, ztne_cn, ztne_cd, ztne_sc, ztne_sn,
          ztne_sd, ztne_nc, ztne_ns, ztne_nd, ztne_dc, ztne_ds, ztne_dn]
  · intro w hw
    exact ⟨getEntry_eq_none _ w hw, getEntry_eq_none _ w hw,
      getEntry_eq_none _ w hw, getEntry_eq_none _ w hw⟩

/-- Witness for C10 at a snapshot containing `Zone1` and an unregistered
`ZoneX`, with `Zone2` absent. -/
theorem mode_decision_keyset_witness :
    keys (critical_mode sensor_c10) = keys ZONES ∧
    getEntry (critical_mode sensor_c10) "Zone2" = some Cmd.OFF ∧
    getEntry (normal_mode sensor_c10 10 12) "ZoneX" = none :=
  ⟨(mode_decision_keyset sensor_c10 10 12 (by decide)).2.1,
    ((mode_decision_keyset sensor_c10 10 12 (by decide)).2.2.2.2.1 "Zone2"
      ⟨ZoneType.semiCritical, 2, "Street Lights"⟩ (by decide) (by decide)
      (by decide)).1,
    ((mode_decision_keyset sensor_c10 10 12 (by decide)).2.2.2.2.2 "ZoneX"
      (by decide)).2.2.2⟩

/-- C1 counterexample: on a snapshot with average battery 7 (Critical mode)
where the critical zone `Zone1` has `inputPower 5 <= 10`, the full optimize
pipeline decides the critical-tier zone OFF. -/
theorem critical_mode_turns_critical_zone_off_cx :
    getEntry ZONES "Zone1" =
      some ⟨ZoneType.critical, 1, "Hospital/Emergency"⟩ ∧
    (optimize_energy_allocation sensor_c1 10 12).map
      (fun r => getEntry r.decisions "Zone1") = some (some Cmd.OFF) := by
  refine ⟨by decide, ?_⟩
  norm_num [optimize_energy_allocation, avgBattery, sensor_c1, selectMode,
    EMERGENCY_BATTERY_THRESHOLD, CRITICAL_BATTERY_THRESHOLD,
    LOW_BATTERY_THRESHOLD, modeDecisions, critical_mode, ZONES, z1e, z2e, z3e,
    z4e, dictGet, getEntry, defaultMetrics, apply_load_balancing, projectedLoad,
    totalAvailable, zsne12, zsne13, zsne14, zsne21, zsne23, zsne24, zsne31,
    zsne32, zsne34, zsne41, zsne42, zsne43, ztne_cs, ztne_cn, ztne_cd, ztne_sc,
    ztne_sn, ztne_sd, ztne_nc, ztne_ns, ztne_nd, ztne_dc, ztne_ds, ztne_dn]

/-- C1 amended: the critical zone `Zone1` is decided ON by the Emergency,
Conservation and Normal modes; Critical mode decides it ON exactly when its
`inputPower > 10`; and the load-balancing pass keeps `Zone1` ON whenever it
was ON and its own `outputPower` fits the `0.9 * total input` ceiling
(`Zone1`, priority 1, is visited first in shedding order). -/
theorem critical_zone_on_amended :
    (∀ sensor : Snapshot, getEntry (emergency_mode sensor) "Zone1" = some Cmd.ON) ∧
    (∀ sensor : Snapshot, getEntry (conservation_mode sensor) "Zone1" = some Cmd.ON) ∧
    (∀ (sensor : Snapshot) (sustain_hours : ℚ) (hour : ℕ),
      getEntry (normal_mode sensor sustain_hours hour) "Zone1" = some Cmd.ON) ∧
    (∀ sensor : Snapshot, getEntry (critical_mode sensor) "Zone1" =
      some (if (dictGet sensor "Zone1").inputPower > 10 then Cmd.ON else Cmd.OFF)) ∧
    (∀ (sensor : Snapshot) (d : DecisionMap),
      getEntry d "Zone1" = some Cmd.ON →
      (dictGet sensor "Zone1").outputPower ≤ totalAvailable sensor * 0.9 →
      getEntry (apply_load_balancing d sensor) "Zone1" = some Cmd.ON) := by
  refine ⟨fun sensor => rfl, fun sensor => rfl, fun sensor su h => rfl,
    fun sensor => rfl, ?_⟩
  intro sensor d hon hle
  by_cases htrig : projectedLoad d sensor > totalAvailable sensor * 0.9
  · simp only [apply_load_balancing]
    rw [if_pos htrig]
    have hsz : sorted_zones = z1e :: [z2e, z3e, z4e] := by decide
    rw [hsz, shedPass_cons]
    have h1 : getEntry ((0 : ℚ), d).2 z1e.1 = some Cmd.ON := hon
    have h2 : ((0 : ℚ), d).1 + (dictGet sensor z1e.1).outputPower ≤
        totalAvailable sensor * 0.9 := by
      show (0 : ℚ) + (dictGet sensor "Zone1").outputPower ≤ _
      rw [zero_add]; exact hle
    rw [shedStep_keep (totalAvailable sensor * 0.9) sensor (0, d) z1e h1 h2]
    rw [shed_untouched (totalAvailable sensor * 0.9) sensor [z2e, z3e, z4e] _
      "Zone1" (by decide)]
    exact hon
  · simp only [apply_load_balancing]
    rw [if_neg htrig]
    exact hon

/-- Witness for the C1 amended theorem on a concrete snapshot where
`Zone1`'s output fits the ceiling. -/
theorem critical_zone_on_amended_witness :
    getEntry allOn "Zone1" = some Cmd.ON ∧
    (dictGet sensor_c3 "Zone1").outputPower ≤ totalAvailable sensor_c3 * 0.9 ∧
    getEntry (apply_load_balancing allOn sensor_c3) "Zone1" = some Cmd.ON ∧
    getEntry (emergency_mode sensor_c3) "Zone1" = some Cmd.ON :=
  ⟨by decide,
    by norm_num [dictGet, getEntry, sensor_c3, totalAvailable],
    critical_zone_on_amended.2.2.2.2 sensor_c3 allOn (by decide)
      (by norm_num [dictGet, getEntry, sensor_c3, totalAvailable]),
    critical_zone_on_amended.1 sensor_c3⟩

/-- C2: whenever the projected load of the zones decided ON strictly exceeds
`0.9 *` total input power, the load-balancing pass brings the ON load within
the ceiling, and zones already OFF are left OFF. -/
theorem load_balancing_capacity_bound (sensor : Snapshot) (d : DecisionMap)
    (hkeys : keys d = keys ZONES)
    (hin : ∀ p ∈ sensor, 0 ≤ p.2.inputPower)
    (hout : ∀ p ∈ sensor, 0 ≤ p.2.outputPower)
    (htrig : projectedLoad d sensor > totalAvailable sensor * 0.9) :
    projectedLoad (apply_load_balancing d sensor) sensor ≤
      totalAvailable sensor * 0.9 ∧
    ∀ z, getEntry d z = some Cmd.OFF →
      getEntry (apply_load_balancing d sensor) z = some Cmd.OFF := by
  have hloadnn : ∀ z, 0 ≤ (dictGet sensor z).outputPower :=
    dictGet_outputPower_nonneg sensor hout
  have hlz : apply_load_balancing d sensor =
      (shedPass (totalAvailable sensor * 0.9) sensor sorted_zones (0, d)).2 := by
    simp only [apply_load_balancing]
    rw [if_pos htrig]
  constructor
  · rw [hlz, projectedLoad_eq_onSum]
    apply shed_bound (totalAvailable sensor * 0.9) sensor hloadnn sorted_zones (0, d)
    · show (keys d).Nodup
      rw [hkeys]; decide
    · show outSum sensor (keys sorted_zones) d ≤ (0 : ℚ)
      have h0 : outSum sensor (keys sorted_zones) d = 0 := by
        apply outSum_eq_zero
        intro p hp
        have hpk : p.1 ∈ keys d := List.mem_map.mpr ⟨p, hp, rfl⟩
        rw [hkeys] at hpk
        have hsz : keys sorted_zones = keys ZONES := by decide
        rw [hsz]
        exact hpk
      rw [h0]
    · show (0 : ℚ) ≤ totalAvailable sensor * 0.9
      exact mul_nonneg (totalAvailable_nonneg sensor hin) (by norm_num)
  · intro z hoff
    rw [hlz]
    exact shed_off_pres _ sensor sorted_zones (0, d) z hoff

/-- Witness for C2 on the concrete overloaded snapshot: total input 50,
projected ON load 51 > 45; `Zone4` starts OFF and stays OFF. -/
theorem load_balancing_capacity_bound_witness :
    projectedLoad (apply_load_balancing d_c2 sensor_c3) sensor_c3 ≤
      totalAvailable sensor_c3 * 0.9 ∧
    getEntry (apply_load_balancing d_c2 sensor_c3) "Zone4" = some Cmd.OFF :=
  ⟨(load_balancing_capacity_bound sensor_c3 d_c2 (by decide) (by decide)
      (by decide)
      (by norm_num [projectedLoad, totalAvailable, d_c2, sensor_c3, dictGet,
        getEntry, defaultMetrics, zsne12, zsne13, zsne14, zsne21, zsne23,
        zsne24, zsne31, zsne32, zsne34, zsne41, zsne42, zsne43])).1,
    (load_balancing_capacity_bound sensor_c3 d_c2 (by decide) (by decide)
      (by decide)
      (by norm_num [projectedLoad, totalAvailable, d_c2, sensor_c3, dictGet,
        getEntry, defaultMetrics, zsne12, zsne13, zsne14, zsne21, zsne23,
        zsne24, zsne31, zsne32, zsne34, zsne41, zsne42, zsne43])).2 "Zone4"
      (by decide)⟩

/-- C3 counterexample: with all zones ON, input 50 and outputs
`10, 40, 1, 0`, the balancer sheds `Zone2` (priority 2) while leaving the
strictly lower-priority `Zone3` (priority 3) ON, although `Zone2` was ON
before balancing — shedding is not priority-monotonic. -/
theorem shedding_not_priority_monotonic_cx :
    getEntry allOn "Zone2" = some Cmd.ON ∧
    getEntry (apply_load_balancing allOn sensor_c3) "Zone2" = some Cmd.OFF ∧
    getEntry (apply_load_balancing allOn sensor_c3) "Zone3" = some Cmd.ON ∧
    (getEntry ZONES "Zone2").map ZoneConfig.priority = some 2 ∧
    (getEntry ZONES "Zone3").map ZoneConfig.priority = some 3 := by
  refine ⟨by decide, ?_, ?_, by decide, by decide⟩ <;>
    norm_num [apply_load_balancing, projectedLoad, totalAvailable, allOn,
      sensor_c3, dictGet, getEntry, defaultMetrics, sorted_zones, ZONES, z1e,
      z2e, z3e, z4e, shedPass, shedStep, setEntry, zsne12, zsne13, zsne14,
      zsne21, zsne23, zsne24, zsne31, zsne32, zsne34, zsne41, zsne42, zsne43]

/-- C3 amended: when the balancer forces a zone OFF while leaving a zone
with a strictly larger priority number ON, the kept lower-priority zone's
`outputPower` is strictly smaller than the shed zone's `outputPower`
(first-fit shedding is priority-monotonic only up to load sizes). -/
theorem shedding_monotonic_up_to_load (sensor : Snapshot) (d : DecisionMap)
    (hout : ∀ p ∈ sensor, 0 ≤ p.2.outputPower)
    (zA zB : String) (cA cB : ZoneConfig)
    (hA : (zA, cA) ∈ ZONES) (hB : (zB, cB) ∈ ZONES)
    (hprio : cA.priority < cB.priority)
    (hAon : getEntry d zA = some Cmd.ON)
    (hAoff : getEntry (apply_load_balancing d sensor) zA = some Cmd.OFF)
    (hBon : getEntry (apply_load_balancing d sensor) zB = some Cmd.ON) :
    (dictGet sensor zB).outputPower < (dictGet sensor zA).outputPower := by
  have hloadnn : ∀ z, 0 ≤ (dictGet sensor z).outputPower :=
    dictGet_outputPower_nonneg sensor hout
  by_cases htrig : projectedLoad d sensor > totalAvailable sensor * 0.9
  · have hlz : apply_load_balancing d sensor =
        (shedPass (totalAvailable sensor * 0.9) sensor sorted_zones (0, d)).2 := by
      simp only [apply_load_balancing]
      rw [if_pos htrig]
    rw [hlz] at hAoff hBon
    have hsz : sorted_zones = [z1e, z2e, z3e, z4e] := by decide
    rw [hsz] at hAoff hBon
    simp only [ZONES, z1e, z2e, z3e, z4e, List.mem_cons, List.not_mem_nil,
      or_false] at hA hB
    rcases hA with h | h | h | h <;> (rw [Prod.mk.injEq] at h; obtain ⟨rfl, rfl⟩ := h)
    · rcases hB with h | h | h | h <;>
        (rw [Prod.mk.injEq] at h; obtain ⟨rfl, rfl⟩ := h)
      · exact absurd hprio (by decide)
      · exact shed_forced_off_gt (totalAvailable sensor * 0.9) sensor hloadnn
          [] z1e [z2e, z3e, z4e] "Zone2" (0, d) (by decide) (by decide)
          (by decide) hAon hAoff hBon
      · exact shed_forced_off_gt (totalAvailable sensor * 0.9) sensor hloadnn
          [] z1e [z2e, z3e, z4e] "Zone3" (0, d) (by decide) (by decide)
          (by decide) hAon hAoff hBon
      · exact shed_forced_off_gt (totalAvailable sensor * 0.9) sensor hloadnn
          [] z1e [z2e, z3e, z4e] "Zone4" (0, d) (by decide) (by decide)
          (by decide) hAon hAoff hBon
    · rcases hB with h | h | h | h <;>
        (rw [Prod.mk.injEq] at h; obtain ⟨rfl, rfl⟩ := h)
      · exact absurd hprio (by decide)
      · exact absurd hprio (by decide)
      · exact shed_forced_off_gt (totalAvailable sensor * 0.9) sensor hloadnn
          [z1e] z2e [z3e, z4e] "Zone3" (0, d) (by decide) (by decide)
          (by decide) hAon hAoff hBon
      · exact shed_forced_off_gt (totalAvailable sensor * 0.9) sensor hloadnn
          [z1e] z2e [z3e, z4e] "Zone4" (0, d) (by decide) (by decide)
          (by decide) hAon hAoff hBon
    · rcases hB with h | h | h | h <;>
        (rw [Prod.mk.injEq] at h; obtain ⟨rfl, rfl⟩ := h)
      · exact absurd hprio (by decide)
      · exact absurd hprio (by decide)
      · exact absurd hprio (by decide)
      · exact shed_forced_off_gt (totalAvailable sensor * 0.9) sensor hloadnn
          [z1e, z2e] z3e [z4e] "Zone4" (0, d) (by decide) (by decide)
          (by decide) hAon hAoff hBon
    · rcases hB with h | h | h | h <;>
        (rw [Prod.mk.injEq] at h; obtain ⟨rfl, rfl⟩ := h) <;>
        exact absurd hprio (by decide)
  · have hlz : apply_load_balancing d sensor = d := by
      simp only [apply_load_balancing]
      rw [if_neg htrig]
    rw [hlz, hAon] at hAoff
    exact absurd (Option.some.inj hAoff) (fun h => Cmd.noConfusion h)

/-- Witness for the C3 amended theorem: on the counterexample snapshot, the
kept `Zone3` load 1 is indeed strictly below the shed `Zone2` load 40. -/
theorem shedding_monotonic_up_to_load_witness :
    (dictGet sensor_c3 "Zone3").outputPower <
      (dictGet sensor_c3 "Zone2").outputPower :=
  shedding_monotonic_up_to_load sensor_c3 allOn (by decide) "Zone2" "Zone3"
    ⟨ZoneType.semiCritical, 2, "Street Lights"⟩
    ⟨ZoneType.nonCritical, 3, "Entertainment"⟩ (by decide) (by decide)
    (by decide) (by decide)
    (by norm_num [apply_load_balancing, projectedLoad, totalAvailable, allOn,
      sensor_c3, dictGet, getEntry, defaultMetrics, sorted_zones, ZONES, z1e,
      z2e, z3e, z4e, shedPass, shedStep, setEntry, zsne12, zsne13, zsne14,
      zsne21, zsne23, zsne24, zsne31, zsne32, zsne34, zsne41, zsne42, zsne43])
    (by norm_num [apply_load_balancing, projectedLoad, totalAvailable, allOn,
      sensor_c3, dictGet, getEntry, defaultMetrics, sorted_zones, ZONES, z1e,
      z2e, z3e, z4e, shedPass, shedStep, setEntry, zsne12, zsne13, zsne14,
      zsne21, zsne23, zsne24, zsne31, zsne32, zsne34, zsne41, zsne42, zsne43])

end Microgrid
